import Mathlib

/-!
Verification of the flag-detection and baseline-derivation engine of the
whoop-it-good repository (src/ai/flags.py, src/ai/context.py,
src/config/settings.py, src/db/models.py).

Modelling conventions:
* Timestamps are integers measured in days; `Env.now` is the value of
  datetime.now at the start of an evaluation, and a timedelta of d days is
  the integer d.
* Numeric fields keep the column types of db/models.py: Float columns
  become Rat, Integer columns become Int; nullable columns become Option.
* The storage layer is a snapshot `Db` whose row lists are held in the
  order the queries of flags.py/context.py request them (descending
  timestamp, i.e. most recent first); a query is a filter over that list.
  `Db.ok = false` models a storage outage: every query then raises, which
  we embed as `Except.error Err.storage`.
* Python truthiness matters in flags.py (`if not hrv_baseline`,
  `x or default`, `if c.strain_score`): both None and 0 are falsy, which
  the helpers `pyOr` and `truthy` reproduce.
* Python round(x, n) rounds half to even; `pyRound`, `round1`, `round2`
  reproduce that on exact rationals.
* The human-readable `message` string of a Flag interpolates the same
  numbers that are stored in `data` (float formatting is not modelled);
  `key`, `severity` and `data` are modelled exactly.
-/

namespace Whoop

/-- Banker rounding to an integer, as Python round does on exact values. -/
def pyRound (x : Rat) : Int :=
  let f : Int := x.floor
  let r : Rat := x - (f : Rat)
  if r < 1/2 then f
  else if 1/2 < r then f + 1
  else if f % 2 = 0 then f else f + 1

/-- Python round(x, 1). -/
def round1 (x : Rat) : Rat := (pyRound (10 * x) : Rat) / 10

/-- Python round(x, 2). -/
def round2 (x : Rat) : Rat := (pyRound (100 * x) : Rat) / 100

/-- statistics.mean on a list of exact rationals. -/
def mean (l : List Rat) : Rat := l.sum / (l.length : Rat)

/-- Python `x or d` for a nullable numeric x: None and 0 are falsy. -/
def pyOr {α : Type} [Zero α] [DecidableEq α] (o : Option α) (d : α) : α :=
  match o with
  | none => d
  | some v => if v = 0 then d else v

/-- Python truthiness filter `if x` on a nullable numeric: drops None and 0. -/
def truthy {α : Type} [Zero α] [DecidableEq α] (o : Option α) : Option α :=
  match o with
  | none => none
  | some v => if v = 0 then none else some v

/-- Rows of the whoop_recovery table (db/models.py), the fields the core reads. -/
structure WhoopRecovery where
  created_at : Int
  recovery_score : Option Int
  hrv_rmssd_milli : Option Rat
  resting_heart_rate : Option Int
  skin_temp_celsius : Option Rat
deriving DecidableEq

/-- Rows of the whoop_sleep table, the fields the core reads. -/
structure WhoopSleep where
  «end» : Int
  sleep_debt_milli : Option Int
deriving DecidableEq

/-- Rows of the whoop_cycles table, the fields the core reads. -/
structure WhoopCycle where
  start : Int
  strain_score : Option Rat
deriving DecidableEq

/-- Faults raised by the storage collaborator. -/
inductive Err where
  | storage
deriving DecidableEq

/-- An immutable storage snapshot. Row lists are held most-recent-first
(descending timestamp), the order every query of the core requests. -/
structure Db where
  ok : Bool
  recoveries : List WhoopRecovery
  sleeps : List WhoopSleep
  cycles : List WhoopCycle
deriving DecidableEq

/-- The read-only environment of one evaluation: current time and snapshot. -/
structure Env where
  now : Int
  db : Db
deriving DecidableEq

instance {ε α : Type} [DecidableEq ε] [DecidableEq α] : DecidableEq (Except ε α) :=
  fun a b =>
    match a, b with
    | Except.ok x, Except.ok y =>
      if h : x = y then Decidable.isTrue (h ▸ rfl)
      else Decidable.isFalse (fun hc => h (by cases hc; rfl))
    | Except.error x, Except.error y =>
      if h : x = y then Decidable.isTrue (h ▸ rfl)
      else Decidable.isFalse (fun hc => h (by cases hc; rfl))
    | Except.ok _, Except.error _ => Decidable.isFalse (fun hc => by cases hc)
    | Except.error _, Except.ok _ => Decidable.isFalse (fun hc => by cases hc)

/-- An evidence value in Flag.data: a number, or the raw list of integer
recovery scores used by the low-recovery rule. -/
inductive Val where
  | num : Rat → Val
  | intList : List Int → Val
deriving DecidableEq

/-- The Flag dataclass of flags.py (message text not modelled, see header). -/
structure Flag where
  key : String
  severity : String
  data : List (String × Val)
deriving DecidableEq

/-! Flag thresholds from config/settings.py. -/

def HRV_DROP_THRESHOLD_PCT : Rat := 15 / 100
def HRV_DROP_CONSECUTIVE_DAYS : Nat := 3
def LOW_RECOVERY_THRESHOLD : Int := 33
def LOW_RECOVERY_CONSECUTIVE_DAYS : Nat := 3
def SLEEP_DEBT_THRESHOLD_HOURS : Rat := 2
def SLEEP_DEBT_WINDOW_DAYS : Int := 5
def SKIN_TEMP_SPIKE_C : Rat := 1 / 2
def STRAIN_OVERLOAD_DAYS : Nat := 5

/-- The rows a successful recovery query returns: created_at within the last
`days` days (the SQL filter is only `created_at >= cutoff`), most recent
first. -/
def recentRows (env : Env) (days : Int) : List WhoopRecovery :=
  env.db.recoveries.filter (fun r => decide (env.now - days ≤ r.created_at))

/-- flags.py _get_recent_recoveries: query recoveries with
created_at >= now - days ordered descending; raises on a storage outage. -/
def get_recent_recoveries (env : Env) (days : Int) : Except Err (List WhoopRecovery) :=
  if env.db.ok then Except.ok (recentRows env days) else Except.error Err.storage

/-- The whoop_sleep query of check_sleep_debt: end >= cutoff and
sleep_debt_milli non-null, most recent first. -/
def sleepRowsQ (env : Env) : List WhoopSleep :=
  env.db.sleeps.filter
    (fun s => decide (env.now - SLEEP_DEBT_WINDOW_DAYS ≤ s.«end») && s.sleep_debt_milli.isSome)

/-- The whoop_cycles query of check_strain_overload: start >= cutoff and
strain_score non-null, most recent first. -/
def strainCyclesQ (env : Env) : List WhoopCycle :=
  env.db.cycles.filter
    (fun c => decide (env.now - (STRAIN_OVERLOAD_DAYS : Int) ≤ c.start) && c.strain_score.isSome)

/-- The whoop_recovery query of check_strain_overload: created_at >= cutoff
and recovery_score non-null, most recent first. -/
def strainRecsQ (env : Env) : List WhoopRecovery :=
  env.db.recoveries.filter
    (fun r => decide (env.now - (STRAIN_OVERLOAD_DAYS : Int) ≤ r.created_at) && r.recovery_score.isSome)

/-- The non-null HRV values among the candidate rows of check_hrv_drop,
most recent first. -/
def hrvVals (env : Env) : List Rat :=
  (recentRows env ((HRV_DROP_CONSECUTIVE_DAYS : Int) + 2)).filterMap (fun r => r.hrv_rmssd_milli)

/-- The non-null recovery scores among the candidate rows of
check_low_recovery, most recent first. -/
def recoveryVals (env : Env) : List Int :=
  (recentRows env ((LOW_RECOVERY_CONSECUTIVE_DAYS : Int) + 2)).filterMap (fun r => r.recovery_score)

/-- The non-null skin temperatures among the candidate rows of
check_skin_temp_spike, most recent first. -/
def skinVals (env : Env) : List Rat :=
  (recentRows env 14).filterMap (fun r => r.skin_temp_celsius)

/-- The flag built by check_hrv_drop from the baseline and the N qualifying
HRV values. -/
def hrvDropFlag (b : Rat) (vals : List Rat) : Flag :=
  let avg := round1 (mean vals)
  let drop_pct := round1 ((b - avg) / b * 100)
  { key := "hrv_drop", severity := "alert",
    data := [("avg_hrv", Val.num avg), ("baseline", Val.num b), ("drop_pct", Val.num drop_pct)] }

/-- flags.py check_hrv_drop. The guard `if not hrv_baseline` is Python
truthiness: both None and 0.0 short-circuit to no flag before any query. -/
def check_hrv_drop (hrv_baseline : Option Rat) (env : Env) : Except Err (Option Flag) :=
  match hrv_baseline with
  | none => Except.ok none
  | some b =>
    if b = 0 then Except.ok none
    else
      match get_recent_recoveries env ((HRV_DROP_CONSECUTIVE_DAYS : Int) + 2) with
      | Except.error e => Except.error e
      | Except.ok rows =>
        let recent := (rows.filterMap (fun r => r.hrv_rmssd_milli)).take HRV_DROP_CONSECUTIVE_DAYS
        if recent.length < HRV_DROP_CONSECUTIVE_DAYS then Except.ok none
        else
          let threshold := b * (1 - HRV_DROP_THRESHOLD_PCT)
          if recent.all (fun v => decide (v < threshold)) then
            Except.ok (some (hrvDropFlag b recent))
          else Except.ok none

/-- The flag built by check_low_recovery from the N qualifying scores. -/
def lowRecoveryFlag (scores : List Int) : Flag :=
  { key := "low_recovery", severity := "alert", data := [("scores", Val.intList scores)] }

/-- flags.py check_low_recovery. -/
def check_low_recovery (env : Env) : Except Err (Option Flag) :=
  match get_recent_recoveries env ((LOW_RECOVERY_CONSECUTIVE_DAYS : Int) + 2) with
  | Except.error e => Except.error e
  | Except.ok rows =>
    let recent := (rows.filterMap (fun r => r.recovery_score)).take LOW_RECOVERY_CONSECUTIVE_DAYS
    if recent.length < LOW_RECOVERY_CONSECUTIVE_DAYS then Except.ok none
    else
      if recent.all (fun s => decide (s < LOW_RECOVERY_THRESHOLD)) then
        Except.ok (some (lowRecoveryFlag recent))
      else Except.ok none

/-- flags.py check_sleep_debt. -/
def check_sleep_debt (env : Env) : Except Err (Option Flag) :=
  if env.db.ok then
    match sleepRowsQ env with
    | [] => Except.ok none
    | s :: _ =>
      let latest_debt_h : Rat := ((s.sleep_debt_milli.getD 0 : Int) : Rat) / 3600000
      if SLEEP_DEBT_THRESHOLD_HOURS < latest_debt_h then
        Except.ok (some { key := "sleep_debt", severity := "warn",
                          data := [("debt_hours", Val.num (round1 latest_debt_h))] })
      else Except.ok none
  else Except.error Err.storage

/-- The flag built by check_skin_temp_spike from the latest sample and the
baseline mean of the remaining samples. -/
def skinTempFlag (latest baseline : Rat) : Flag :=
  { key := "skin_temp", severity := "alert",
    data := [("latest", Val.num (round2 latest)), ("baseline", Val.num (round2 baseline)),
             ("delta", Val.num (round2 (latest - baseline)))] }

/-- flags.py check_skin_temp_spike. -/
def check_skin_temp_spike (env : Env) : Except Err (Option Flag) :=
  match get_recent_recoveries env 14 with
  | Except.error e => Except.error e
  | Except.ok rows =>
    let temps := rows.filterMap (fun r => r.skin_temp_celsius)
    if temps.length < 5 then Except.ok none
    else
      match temps with
      | [] => Except.ok none
      | latest :: rest =>
        let baseline := mean rest
        let delta := latest - baseline
        if SKIN_TEMP_SPIKE_C < delta then Except.ok (some (skinTempFlag latest baseline))
        else Except.ok none

/-- flags.py check_strain_overload. Note `(c.strain_score or 0)`,
`(r.recovery_score or 100)` and the truthiness filters in the two averages. -/
def check_strain_overload (env : Env) : Except Err (Option Flag) :=
  if env.db.ok then
    let cycles := strainCyclesQ env
    let recoveries := strainRecsQ env
    if cycles.length < STRAIN_OVERLOAD_DAYS ∨ recoveries.length < STRAIN_OVERLOAD_DAYS then
      Except.ok none
    else
      let pairs := (cycles.take STRAIN_OVERLOAD_DAYS).zip (recoveries.take STRAIN_OVERLOAD_DAYS)
      let overloaded_days := pairs.countP
        (fun p => decide (14 ≤ pyOr p.1.strain_score 0) && decide (pyOr p.2.recovery_score 100 < 67))
      if STRAIN_OVERLOAD_DAYS ≤ overloaded_days then
        let avg_strain := round1 (mean ((cycles.take STRAIN_OVERLOAD_DAYS).filterMap
          (fun c => truthy c.strain_score)))
        let avg_rec := round1 (mean (((recoveries.take STRAIN_OVERLOAD_DAYS).filterMap
          (fun r => truthy r.recovery_score)).map (fun i : Int => (i : Rat))))
        Except.ok (some { key := "strain_overload", severity := "alert",
                          data := [("avg_strain", Val.num avg_strain),
                                   ("avg_recovery", Val.num avg_rec)] })
      else Except.ok none
  else Except.error Err.storage

/-- The per-checker containment loop of run_all_checks: a flag is appended
when the checker returns one, a caught fault is appended to the log, and
evaluation always continues. Returns (flags, logged faults), each in
evaluation order. -/
def runChecks : List (Except Err (Option Flag)) → List Flag × List Err
  | [] => ([], [])
  | r :: rs =>
    let rest := runChecks rs
    match r with
    | Except.ok (some f) => (f :: rest.1, rest.2)
    | Except.ok none => rest
    | Except.error e => (rest.1, e :: rest.2)

/-- flags.py run_all_checks, with the list of logged (caught) faults made
explicit as the second component. -/
def run_all_checks_full (env : Env) (hrv_baseline : Option Rat) : List Flag × List Err :=
  runChecks
    [check_hrv_drop hrv_baseline env,
     check_low_recovery env,
     check_sleep_debt env,
     check_skin_temp_spike env,
     check_strain_overload env]

/-- flags.py run_all_checks: the list of active flags it returns. -/
def run_all_checks (env : Env) (hrv_baseline : Option Rat) : List Flag :=
  (run_all_checks_full env hrv_baseline).1

/-- context.py get_hrv_baseline. The query filter is only
created_at >= now - days together with non-null HRV. -/
def get_hrv_baseline (env : Env) (days : Int) : Except Err (Option Rat) :=
  if env.db.ok then
    let values := (env.db.recoveries.filter
      (fun r => decide (env.now - days ≤ r.created_at) && r.hrv_rmssd_milli.isSome)).filterMap
      (fun r => r.hrv_rmssd_milli)
    Except.ok (if values.isEmpty then none else some (round1 (mean values)))
  else Except.error Err.storage

/-- context.py get_rhr_baseline (resting_heart_rate is an Integer column). -/
def get_rhr_baseline (env : Env) (days : Int) : Except Err (Option Rat) :=
  if env.db.ok then
    let values := ((env.db.recoveries.filter
      (fun r => decide (env.now - days ≤ r.created_at) && r.resting_heart_rate.isSome)).filterMap
      (fun r => r.resting_heart_rate)).map (fun i : Int => (i : Rat))
    Except.ok (if values.isEmpty then none else some (round1 (mean values)))
  else Except.error Err.storage

/-! Definitions written from the words of the specification, for comparison
with the functions above. -/

/-- Spec wording of the baseline contract: the arithmetic mean of the
qualifying values rounded to one decimal place when at least one exists,
and an explicit undefined value otherwise. -/
def specBaselineOfVals (vals : List Rat) : Option Rat :=
  if vals = [] then none else some (round1 (vals.sum / (vals.length : Rat)))

/-- Spec wording of the baseline window: the non-null HRV values of records
whose timestamp falls within the half-open interval from now - days to now. -/
def specHrvWindowVals (env : Env) (days : Int) : List Rat :=
  (env.db.recoveries.filter
    (fun r => decide (env.now - days ≤ r.created_at) && decide (r.created_at < env.now))).filterMap
    (fun r => r.hrv_rmssd_milli)

/-- Amended baseline window for the HRV field: all records with timestamp at
least now - days; the code puts no upper bound on the timestamp. -/
def amendedHrvQualVals (env : Env) (days : Int) : List Rat :=
  (env.db.recoveries.filter (fun r => decide (env.now - days ≤ r.created_at))).filterMap
    (fun r => r.hrv_rmssd_milli)

/-- Amended baseline window for the resting-heart-rate field. -/
def amendedRhrQualVals (env : Env) (days : Int) : List Rat :=
  ((env.db.recoveries.filter (fun r => decide (env.now - days ≤ r.created_at))).filterMap
    (fun r => r.resting_heart_rate)).map (fun i : Int => (i : Rat))

/-- The candidate pool as the claim about the consecutive-day window states
it: exactly the N+2 most recent records. -/
def specClaimPool (env : Env) : List WhoopRecovery :=
  env.db.recoveries.take (HRV_DROP_CONSECUTIVE_DAYS + 2)

/-- The candidate pool as the code computes it (amended wording): exactly the
records whose timestamp falls within the trailing N+2 days, most recent
first, however many those are. -/
def specAmendedPool (env : Env) : List WhoopRecovery :=
  env.db.recoveries.filter
    (fun r => decide (env.now - ((HRV_DROP_CONSECUTIVE_DAYS : Int) + 2) ≤ r.created_at))

/-- The per-day overload predicate as the strain-overload claim states it:
strain at least 14 and recovery score below 67, a missing strain read as 0
and a missing recovery score read as 100. -/
def specOverloadedPair (p : WhoopCycle × WhoopRecovery) : Bool :=
  decide (14 ≤ p.1.strain_score.getD 0) && decide (p.2.recovery_score.getD 100 < 67)

/-! Concrete storage snapshots used as witnesses and counterexamples. -/

/-- A recovery row, fields in the order created_at, recovery_score,
hrv_rmssd_milli, resting_heart_rate, skin_temp_celsius. -/
def recRow (t : Int) (score : Option Int) (hrv : Option Rat) (rhr : Option Int)
    (temp : Option Rat) : WhoopRecovery :=
  { created_at := t, recovery_score := score, hrv_rmssd_milli := hrv,
    resting_heart_rate := rhr, skin_temp_celsius := temp }

/-- A cycle row. -/
def cycRow (t : Int) (s : Option Rat) : WhoopCycle := { start := t, strain_score := s }

/-- Storage outage: every query raises. -/
def envOutage : Env :=
  { now := 0, db := { ok := false, recoveries := [], sleeps := [], cycles := [] } }

/-- Sparse history: storage works but holds no rows at all. -/
def envSparse : Env :=
  { now := 0, db := { ok := true, recoveries := [], sleeps := [], cycles := [] } }

/-- Three consecutive recent HRV values 70, 75, 80. -/
def envHrvFires : Env :=
  { now := 0,
    db := { ok := true,
            recoveries := [recRow 0 none (some 70) none none,
                           recRow (-1) none (some 75) none none,
                           recRow (-2) none (some 80) none none],
            sleeps := [], cycles := [] } }

/-- Three consecutive recent HRV values 70, 90, 80 (90 is above the 85
threshold of baseline 100). -/
def envHrvQuiet : Env :=
  { now := 0,
    db := { ok := true,
            recoveries := [recRow 0 none (some 70) none none,
                           recRow (-1) none (some 90) none none,
                           recRow (-2) none (some 80) none none],
            sleeps := [], cycles := [] } }

/-- Three recent HRV values below 0: every value is under the threshold of a
baseline of 0.0, yet the falsy-baseline guard returns no flag. -/
def envHrvZeroBase : Env :=
  { now := 0,
    db := { ok := true,
            recoveries := [recRow 0 none (some (-1)) none none,
                           recRow (-1) none (some (-1)) none none,
                           recRow (-2) none (some (-1)) none none],
            sleeps := [], cycles := [] } }

/-- Six records inside the trailing 5-day window; the three non-null HRV
values 70, 75, 80 sit at positions 1, 2 and 6, so the sixth record matters
although it is not among the 5 most recent records. -/
def envPool : Env :=
  { now := 0,
    db := { ok := true,
            recoveries := [recRow 0 none (some 70) none none,
                           recRow (-1) none (some 75) none none,
                           recRow (-1) none none none none,
                           recRow (-2) none none none none,
                           recRow (-2) none none none none,
                           recRow (-3) none (some 80) none none],
            sleeps := [], cycles := [] } }

/-- Three consecutive recovery scores 20, 25, 30, all in the red zone. -/
def envLowFires : Env :=
  { now := 0,
    db := { ok := true,
            recoveries := [recRow 0 (some 20) none none none,
                           recRow (-1) (some 25) none none none,
                           recRow (-2) (some 30) none none none],
            sleeps := [], cycles := [] } }

/-- Recovery scores 20, 40, 30: the middle one is above the threshold 33. -/
def envLowQuiet : Env :=
  { now := 0,
    db := { ok := true,
            recoveries := [recRow 0 (some 20) none none none,
                           recRow (-1) (some 40) none none none,
                           recRow (-2) (some 30) none none none],
            sleeps := [], cycles := [] } }

/-- Five recent skin temperatures 37.5, 36.8, 36.9, 36.7, 36.8: the baseline
over the four older samples is 36.8 and the latest is 0.7 above it. -/
def envSkin : Env :=
  { now := 0,
    db := { ok := true,
            recoveries := [recRow 0 none none none (some (75/2)),
                           recRow (-1) none none none (some (184/5)),
                           recRow (-2) none none none (some (369/10)),
                           recRow (-3) none none none (some (367/10)),
                           recRow (-4) none none none (some (184/5))],
            sleeps := [], cycles := [] } }

/-- Only four recent skin temperatures: below the five-sample requirement. -/
def envSkinFew : Env :=
  { now := 0,
    db := { ok := true,
            recoveries := [recRow 0 none none none (some 40),
                           recRow (-1) none none none (some (184/5)),
                           recRow (-2) none none none (some (369/10)),
                           recRow (-3) none none none (some (367/10))],
            sleeps := [], cycles := [] } }

/-- Five paired days, every cycle at strain 15 and recovery scores
0, 10, 10, 10, 10: by the stated rule every day is overloaded, but the
Python expression recovery_score or 100 turns the falsy score 0 into 100. -/
def envStrainBug : Env :=
  { now := 0,
    db := { ok := true,
            recoveries := [recRow 0 (some 0) none none none,
                           recRow (-1) (some 10) none none none,
                           recRow (-2) (some 10) none none none,
                           recRow (-3) (some 10) none none none,
                           recRow (-4) (some 10) none none none],
            sleeps := [],
            cycles := [cycRow 0 (some 15), cycRow (-1) (some 15), cycRow (-2) (some 15),
                       cycRow (-3) (some 15), cycRow (-4) (some 15)] } }

/-- A single record timestamped exactly at now, with an HRV value: outside
the half-open spec window, inside the code window. -/
def envBoundary : Env :=
  { now := 0,
    db := { ok := true, recoveries := [recRow 0 none (some 50) none none],
            sleeps := [], cycles := [] } }

/-! Helper lemmas. -/

lemma filterMap_isSome_drop {α β : Type} (l : List α) (p : α → Bool) (f : α → Option β) :
    (l.filter (fun a => p a && (f a).isSome)).filterMap f = (l.filter p).filterMap f := by
  induction l with
  | nil => rfl
  | cons a l ih =>
    by_cases hp : p a
    · cases hf : f a with
      | none => simp [List.filter_cons, List.filterMap_cons, hp, hf, ih]
      | some b => simp [List.filter_cons, List.filterMap_cons, hp, hf, ih]
    · simp [List.filter_cons, hp, ih]

lemma baseline_shape (vals : List Rat) :
    (if vals.isEmpty then none else some (round1 (mean vals))) = specBaselineOfVals vals := by
  cases vals <;> simp [specBaselineOfVals, mean]

lemma check_low_recovery_outage (env : Env) (h : env.db.ok = false) :
    check_low_recovery env = Except.error Err.storage := by
  simp [check_low_recovery, get_recent_recoveries, h]

lemma check_sleep_debt_outage (env : Env) (h : env.db.ok = false) :
    check_sleep_debt env = Except.error Err.storage := by
  simp [check_sleep_debt, h]

lemma check_skin_outage (env : Env) (h : env.db.ok = false) :
    check_skin_temp_spike env = Except.error Err.storage := by
  simp [check_skin_temp_spike, get_recent_recoveries, h]

lemma check_strain_outage (env : Env) (h : env.db.ok = false) :
    check_strain_overload env = Except.error Err.storage := by
  simp [check_strain_overload, h]

lemma check_hrv_outage (env : Env) (hb : Option Rat) (h : env.db.ok = false) :
    check_hrv_drop hb env = Except.ok none ∨
    check_hrv_drop hb env = Except.error Err.storage := by
  cases hb with
  | none => exact Or.inl rfl
  | some b =>
    by_cases hb0 : b = 0
    · exact Or.inl (by simp [check_hrv_drop, hb0])
    · exact Or.inr (by simp [check_hrv_drop, hb0, get_recent_recoveries, h])

lemma check_hrv_sparse (env : Env) (hb : Option Rat) (h : env.db.ok = true)
    (hlen : (hrvVals env).length < HRV_DROP_CONSECUTIVE_DAYS) :
    check_hrv_drop hb env = Except.ok none := by
  cases hb with
  | none => rfl
  | some b =>
    by_cases hb0 : b = 0
    · simp [check_hrv_drop, hb0]
    · have hq : get_recent_recoveries env ((HRV_DROP_CONSECUTIVE_DAYS : Int) + 2) =
          Except.ok (recentRows env ((HRV_DROP_CONSECUTIVE_DAYS : Int) + 2)) := by
        simp [get_recent_recoveries, h]
      have hvals : (recentRows env ((HRV_DROP_CONSECUTIVE_DAYS : Int) + 2)).filterMap
          (fun r => r.hrv_rmssd_milli) = hrvVals env := rfl
      have hc : (((hrvVals env).take HRV_DROP_CONSECUTIVE_DAYS).length <
          HRV_DROP_CONSECUTIVE_DAYS) := by
        simp [List.length_take]
        omega
      simp only [check_hrv_drop, hq, hvals, if_neg hb0]
      rw [if_pos hc]

lemma check_low_sparse (env : Env) (h : env.db.ok = true)
    (hlen : (recoveryVals env).length < LOW_RECOVERY_CONSECUTIVE_DAYS) :
    check_low_recovery env = Except.ok none := by
  have hq : get_recent_recoveries env ((LOW_RECOVERY_CONSECUTIVE_DAYS : Int) + 2) =
      Except.ok (recentRows env ((LOW_RECOVERY_CONSECUTIVE_DAYS : Int) + 2)) := by
    simp [get_recent_recoveries, h]
  have hvals : (recentRows env ((LOW_RECOVERY_CONSECUTIVE_DAYS : Int) + 2)).filterMap
      (fun r => r.recovery_score) = recoveryVals env := rfl
  have hc : (((recoveryVals env).take LOW_RECOVERY_CONSECUTIVE_DAYS).length <
      LOW_RECOVERY_CONSECUTIVE_DAYS) := by
    simp [List.length_take]
    omega
  simp only [check_low_recovery, hq, hvals]
  rw [if_pos hc]

lemma check_sleep_empty (env : Env) (h : env.db.ok = true) (he : sleepRowsQ env = []) :
    check_sleep_debt env = Except.ok none := by
  simp [check_sleep_debt, h, he]

lemma check_skin_sparse (env : Env) (h : env.db.ok = true)
    (hlen : (skinVals env).length < 5) :
    check_skin_temp_spike env = Except.ok none := by
  have hq : get_recent_recoveries env 14 = Except.ok (recentRows env 14) := by
    simp [get_recent_recoveries, h]
  have hvals : (recentRows env 14).filterMap (fun r => r.skin_temp_celsius) = skinVals env := rfl
  simp only [check_skin_temp_spike, hq, hvals]
  rw [if_pos hlen]

lemma check_strain_few (env : Env) (h : env.db.ok = true)
    (hc : (strainCyclesQ env).length < STRAIN_OVERLOAD_DAYS) :
    check_strain_overload env = Except.ok none := by
  simp only [check_strain_overload, h, if_true]
  rw [if_pos (Or.inl hc)]

lemma runChecks_append (l1 l2 : List (Except Err (Option Flag))) :
    runChecks (l1 ++ l2) =
      ((runChecks l1).1 ++ (runChecks l2).1, (runChecks l1).2 ++ (runChecks l2).2) := by
  induction l1 with
  | nil => simp [runChecks]
  | cons r l1 ih =>
    cases r with
    | ok o =>
      cases o with
      | none => simpa [runChecks] using ih
      | some f => simp [runChecks, ih]
    | error e => simp [runChecks, ih]

/-! Claim theorems. -/

/-- C1: if one rule of the orchestrator raises, the raised fault is recorded
in the log, contributes no flag (exactly as if the rule had returned no
flag), is never propagated (runChecks is a total function into flag lists),
and the returned list is the concatenation, in evaluation order, of the
flags of the rules before and after it; run_all_checks runs exactly the five
rules HRV drop, low recovery, sleep debt, skin-temp spike, strain overload
in that fixed order. -/
theorem orchestrator_isolates_faults :
    (∀ (pre post : List (Except Err (Option Flag))) (e : Err),
        (runChecks (pre ++ Except.error e :: post)).1 =
          (runChecks pre).1 ++ (runChecks post).1 ∧
        (runChecks (pre ++ Except.error e :: post)).1 =
          (runChecks (pre ++ Except.ok none :: post)).1 ∧
        e ∈ (runChecks (pre ++ Except.error e :: post)).2) ∧
    (∀ env hb, run_all_checks env hb =
        (runChecks [check_hrv_drop hb env, check_low_recovery env, check_sleep_debt env,
                    check_skin_temp_spike env, check_strain_overload env]).1) := by
  constructor
  · intro pre post e
    refine ⟨?_, ?_, ?_⟩ <;> simp [runChecks_append, runChecks]
  · intro env hb
    rfl

/-- C9: run_all_checks is deterministic in its inputs: two evaluations
against the same immutable snapshot and the same baseline argument return
equal flag lists, equality of flags being structural (key, severity and
every evidence value). -/
theorem run_all_checks_deterministic :
    ∀ (e1 e2 : Env) (hb1 hb2 : Option Rat), e1 = e2 → hb1 = hb2 →
      run_all_checks e1 hb1 = run_all_checks e2 hb2 := by
  intro e1 e2 hb1 hb2 h1 h2
  rw [h1, h2]

/-- C9 witness: the two evaluations coincide on a concrete snapshot. -/
theorem run_all_checks_deterministic_witness :
    run_all_checks envHrvFires (some 100) = run_all_checks envHrvFires (some 100) :=
  run_all_checks_deterministic envHrvFires envHrvFires (some 100) (some 100) rfl rfl

/-- C10: check_hrv_drop returns no flag whenever the supplied baseline is
None or 0.0 (the Python guard `if not hrv_baseline` is falsy for both), so
the division by the baseline in the drop-percentage computation is only ever
reached with a nonzero baseline. -/
theorem check_hrv_drop_falsy_baseline_guard :
    ∀ env, check_hrv_drop none env = Except.ok none ∧
           check_hrv_drop (some 0) env = Except.ok none := by
  intro env
  constructor
  · rfl
  · simp [check_hrv_drop]

/-- C8: the failing input for the zero-recovery-score slip. Every one of the
five positionally paired days satisfies the stated overload condition
(strain 15 at least 14, recovery scores 0, 10, 10, 10, 10 all below 67,
with the missing-data defaults of the claim), both paired lists have the
required five elements, yet check_strain_overload returns no flag, because
the Python expression `(r.recovery_score or 100)` maps the falsy score 0 to
100. -/
theorem strain_overload_zero_score_bug :
    (((strainCyclesQ envStrainBug).take STRAIN_OVERLOAD_DAYS).zip
        ((strainRecsQ envStrainBug).take STRAIN_OVERLOAD_DAYS)).all specOverloadedPair = true ∧
    (strainCyclesQ envStrainBug).length = 5 ∧
    (strainRecsQ envStrainBug).length = 5 ∧
    check_strain_overload envStrainBug = Except.ok none := by
  with_unfolding_all decide

/-- C2 counterexample: with the storage layer unavailable every rule query
raises (check_low_recovery evaluates to the storage fault), yet
run_all_checks catches the faults and returns the empty list to its caller
instead of propagating a raised exception. -/
theorem storage_fault_not_propagated :
    check_low_recovery envOutage = Except.error Err.storage ∧
    run_all_checks envOutage (some 50) = [] := by
  with_unfolding_all decide

/-- C3 counterexample: a record timestamped exactly at now carries the only
HRV value. The half-open spec window holds zero qualifying values, so the
claim demands the undefined baseline, but get_hrv_baseline has no upper
time bound and returns 50.0. -/
theorem baseline_window_upper_bound_counterexample :
    specHrvWindowVals envBoundary 30 = [] ∧
    get_hrv_baseline envBoundary 30 = Except.ok (some 50) := by
  with_unfolding_all decide

/-- C4 counterexample: at the defined baseline 0.0 the candidate records
hold three non-null HRV values, each below the threshold 0 × (1 − 0.15), so
the claim demands a flag; the code returns none because 0.0 is falsy. -/
theorem hrv_drop_zero_baseline_counterexample :
    (hrvVals envHrvZeroBase).take HRV_DROP_CONSECUTIVE_DAYS = [-1, -1, -1] ∧
    ((hrvVals envHrvZeroBase).take HRV_DROP_CONSECUTIVE_DAYS).all
      (fun v => decide (v < 0 * (1 - HRV_DROP_THRESHOLD_PCT))) = true ∧
    check_hrv_drop (some 0) envHrvZeroBase = Except.ok none := by
  with_unfolding_all decide

/-- C5 counterexample: six records sit inside the trailing 5-day window, so
the pool the query returns has six elements, not the claimed five; the five
most recent records contain only two non-null HRV values, yet the rule fires
with the values 70, 75 and 80 because the sixth record is in the pool. -/
theorem candidate_pool_counterexample :
    (recentRows envPool ((HRV_DROP_CONSECUTIVE_DAYS : Int) + 2)).length = 6 ∧
    (specClaimPool envPool).length = 5 ∧
    ((specClaimPool envPool).filterMap
      (fun r => r.hrv_rmssd_milli)).length < HRV_DROP_CONSECUTIVE_DAYS ∧
    check_hrv_drop (some 100) envPool = Except.ok (some (hrvDropFlag 100 [70, 75, 80])) := by
  with_unfolding_all decide

/-- C2 (amended): storage faults raised by the queries inside run_all_checks
are caught by the per-rule containment, recorded in the log, and never
propagated: under a full outage the caller receives the empty list and the
log of caught faults is nonempty. An invocation over working storage with
merely sparse history (fewer qualifying samples than each rule requires)
also returns the empty list, and run_all_checks is a total function, so it
never raises. -/
theorem run_all_checks_contains_faults :
    (∀ (env : Env) (hb : Option Rat), env.db.ok = false →
        run_all_checks env hb = [] ∧ (run_all_checks_full env hb).2 ≠ []) ∧
    (∀ (env : Env) (hb : Option Rat), env.db.ok = true →
        (hrvVals env).length < HRV_DROP_CONSECUTIVE_DAYS →
        (recoveryVals env).length < LOW_RECOVERY_CONSECUTIVE_DAYS →
        sleepRowsQ env = [] →
        (skinVals env).length < 5 →
        (strainCyclesQ env).length < STRAIN_OVERLOAD_DAYS →
        run_all_checks env hb = []) := by
  constructor
  · intro env hb h
    rcases check_hrv_outage env hb h with hx | hx <;>
      constructor <;>
        simp [run_all_checks, run_all_checks_full, runChecks, hx,
              check_low_recovery_outage env h, check_sleep_debt_outage env h,
              check_skin_outage env h, check_strain_outage env h]
  · intro env hb h h1 h2 h3 h4 h5
    simp [run_all_checks, run_all_checks_full, runChecks,
          check_hrv_sparse env hb h h1, check_low_sparse env h h2,
          check_sleep_empty env h h3, check_skin_sparse env h h4,
          check_strain_few env h h5]

/-- C2 witness: both parts evaluated, on the outage snapshot and on an empty
sparse snapshot. -/
theorem run_all_checks_contains_faults_witness :
    (run_all_checks envOutage (some 50) = [] ∧
      (run_all_checks_full envOutage (some 50)).2 ≠ []) ∧
    run_all_checks envSparse (some 50) = [] :=
  ⟨run_all_checks_contains_faults.1 envOutage (some 50) rfl,
   run_all_checks_contains_faults.2 envSparse (some 50) rfl
     (by with_unfolding_all decide) (by with_unfolding_all decide) rfl
     (by with_unfolding_all decide) (by with_unfolding_all decide)⟩

/-- C3 (amended): for every snapshot with working storage and every window
length, each baseline function returns exactly the spec-side baseline (the
arithmetic mean of the non-null values of its field, rounded to one decimal,
and the explicit undefined value — never zero, never a fault — when no
qualifying value exists) over the amended window of all records with
timestamp at least now − window; the code puts no upper bound at now. -/
theorem baseline_is_mean_of_trailing_window :
    ∀ (env : Env) (days : Int), env.db.ok = true →
      get_hrv_baseline env days = Except.ok (specBaselineOfVals (amendedHrvQualVals env days)) ∧
      get_rhr_baseline env days = Except.ok (specBaselineOfVals (amendedRhrQualVals env days)) := by
  intro env days hok
  constructor
  · have hv : (env.db.recoveries.filter
        (fun r => decide (env.now - days ≤ r.created_at) && r.hrv_rmssd_milli.isSome)).filterMap
        (fun r => r.hrv_rmssd_milli) = amendedHrvQualVals env days := by
      rw [amendedHrvQualVals, filterMap_isSome_drop]
    unfold get_hrv_baseline
    rw [if_pos hok, hv]
    exact congrArg Except.ok (baseline_shape _)
  · have hv : (env.db.recoveries.filter
        (fun r => decide (env.now - days ≤ r.created_at) && r.resting_heart_rate.isSome)).filterMap
        (fun r => r.resting_heart_rate) =
        (env.db.recoveries.filter (fun r => decide (env.now - days ≤ r.created_at))).filterMap
        (fun r => r.resting_heart_rate) := by
      rw [filterMap_isSome_drop]
    have hV : ((env.db.recoveries.filter
        (fun r => decide (env.now - days ≤ r.created_at) && r.resting_heart_rate.isSome)).filterMap
        (fun r => r.resting_heart_rate)).map (fun i : Int => (i : Rat)) =
        amendedRhrQualVals env days := by
      rw [hv]; rfl
    unfold get_rhr_baseline
    rw [if_pos hok, hV]
    exact congrArg Except.ok (baseline_shape _)

/-- C3 witness: the amended baseline theorem applied to the boundary
snapshot with the default 30-day window. -/
theorem baseline_is_mean_of_trailing_window_witness :
    get_hrv_baseline envBoundary 30 =
      Except.ok (specBaselineOfVals (amendedHrvQualVals envBoundary 30)) ∧
    get_rhr_baseline envBoundary 30 =
      Except.ok (specBaselineOfVals (amendedRhrQualVals envBoundary 30)) :=
  baseline_is_mean_of_trailing_window envBoundary 30 rfl

/-- C4 (amended): for every defined nonzero HRV baseline b and every
snapshot with working storage whose candidate records hold at least N = 3
non-null HRV values, check_hrv_drop fires exactly when all N most-recent
non-null HRV values lie strictly below b × (1 − 0.15), and the flag then
carries the mean of the N values rounded to one decimal and the percentage
drop of that mean versus b. At the defined baseline 0.0 the rule never
fires (falsy guard), which is the one case the original claim excludes. -/
theorem check_hrv_drop_characterization :
    ∀ (env : Env) (b : Rat), env.db.ok = true → b ≠ 0 →
      HRV_DROP_CONSECUTIVE_DAYS ≤ (hrvVals env).length →
      check_hrv_drop (some b) env = Except.ok
        (if ((hrvVals env).take HRV_DROP_CONSECUTIVE_DAYS).all
              (fun v => decide (v < b * (1 - HRV_DROP_THRESHOLD_PCT)))
         then some (hrvDropFlag b ((hrvVals env).take HRV_DROP_CONSECUTIVE_DAYS))
         else none) := by
  intro env b hok hb0 hlen
  have hq : get_recent_recoveries env ((HRV_DROP_CONSECUTIVE_DAYS : Int) + 2) =
      Except.ok (recentRows env ((HRV_DROP_CONSECUTIVE_DAYS : Int) + 2)) := by
    simp [get_recent_recoveries, hok]
  have hvals : (recentRows env ((HRV_DROP_CONSECUTIVE_DAYS : Int) + 2)).filterMap
      (fun r => r.hrv_rmssd_milli) = hrvVals env := rfl
  have hnot : ¬ (((hrvVals env).take HRV_DROP_CONSECUTIVE_DAYS).length <
      HRV_DROP_CONSECUTIVE_DAYS) := by
    simp [List.length_take]
    omega
  simp only [check_hrv_drop, hq, hvals, if_neg hb0]
  rw [if_neg hnot]
  cases hall : ((hrvVals env).take HRV_DROP_CONSECUTIVE_DAYS).all
      (fun v => decide (v < b * (1 - HRV_DROP_THRESHOLD_PCT))) <;> simp [hall]

/-- C4 witness: with baseline 100 the rule fires on values 70, 75, 80 with
evidence avg 75.0 and drop 25.0, and does not fire on 70, 90, 80. -/
theorem check_hrv_drop_characterization_witness :
    ((100 : Rat) ≠ 0 ∧ HRV_DROP_CONSECUTIVE_DAYS ≤ (hrvVals envHrvFires).length) ∧
    check_hrv_drop (some 100) envHrvFires =
      Except.ok (some (hrvDropFlag 100 [70, 75, 80])) ∧
    check_hrv_drop (some 100) envHrvQuiet = Except.ok none :=
  ⟨⟨by norm_num, by with_unfolding_all decide⟩,
   (check_hrv_drop_characterization envHrvFires 100 rfl (by norm_num)
      (by with_unfolding_all decide)).trans (by with_unfolding_all decide),
   (check_hrv_drop_characterization envHrvQuiet 100 rfl (by norm_num)
      (by with_unfolding_all decide)).trans (by with_unfolding_all decide)⟩

/-- C5 (amended): for every snapshot with working storage, the candidate
pool the HRV-drop rule and the low-recovery rule draw from is exactly the
set of records whose timestamp falls within the trailing N+2 days, in
most-recent-first order — which holds the N+2 most recent records only when
records arrive at most once per day. -/
theorem rule_candidate_pool :
    ∀ env, env.db.ok = true →
      get_recent_recoveries env ((HRV_DROP_CONSECUTIVE_DAYS : Int) + 2) =
        Except.ok (specAmendedPool env) ∧
      get_recent_recoveries env ((LOW_RECOVERY_CONSECUTIVE_DAYS : Int) + 2) =
        Except.ok (specAmendedPool env) := by
  intro env h
  constructor <;>
    simp [get_recent_recoveries, recentRows, specAmendedPool, h,
          HRV_DROP_CONSECUTIVE_DAYS, LOW_RECOVERY_CONSECUTIVE_DAYS]

/-- C5 witness: the amended pool theorem applied to the six-record
snapshot. -/
theorem rule_candidate_pool_witness :
    get_recent_recoveries envPool ((HRV_DROP_CONSECUTIVE_DAYS : Int) + 2) =
      Except.ok (specAmendedPool envPool) ∧
    get_recent_recoveries envPool ((LOW_RECOVERY_CONSECUTIVE_DAYS : Int) + 2) =
      Except.ok (specAmendedPool envPool) :=
  rule_candidate_pool envPool rfl

/-- C6: for every snapshot with working storage whose candidate records hold
at least N = 3 non-null recovery scores, check_low_recovery fires exactly
when all N most-recent non-null scores are strictly below the threshold 33,
and the flag then carries the raw list of the N scores in most-recent-first
order. -/
theorem check_low_recovery_characterization :
    ∀ env, env.db.ok = true → LOW_RECOVERY_CONSECUTIVE_DAYS ≤ (recoveryVals env).length →
      check_low_recovery env = Except.ok
        (if ((recoveryVals env).take LOW_RECOVERY_CONSECUTIVE_DAYS).all
              (fun s => decide (s < LOW_RECOVERY_THRESHOLD))
         then some (lowRecoveryFlag ((recoveryVals env).take LOW_RECOVERY_CONSECUTIVE_DAYS))
         else none) := by
  intro env hok hlen
  have hq : get_recent_recoveries env ((LOW_RECOVERY_CONSECUTIVE_DAYS : Int) + 2) =
      Except.ok (recentRows env ((LOW_RECOVERY_CONSECUTIVE_DAYS : Int) + 2)) := by
    simp [get_recent_recoveries, hok]
  have hvals : (recentRows env ((LOW_RECOVERY_CONSECUTIVE_DAYS : Int) + 2)).filterMap
      (fun r => r.recovery_score) = recoveryVals env := rfl
  have hnot : ¬ (((recoveryVals env).take LOW_RECOVERY_CONSECUTIVE_DAYS).length <
      LOW_RECOVERY_CONSECUTIVE_DAYS) := by
    simp [List.length_take]
    omega
  simp only [check_low_recovery, hq, hvals]
  rw [if_neg hnot]
  cases hall : ((recoveryVals env).take LOW_RECOVERY_CONSECUTIVE_DAYS).all
      (fun s => decide (s < LOW_RECOVERY_THRESHOLD)) <;> simp [hall]

/-- C6 witness: scores 20, 25, 30 fire with evidence the raw score list;
scores 20, 40, 30 do not fire. -/
theorem check_low_recovery_characterization_witness :
    (LOW_RECOVERY_CONSECUTIVE_DAYS ≤ (recoveryVals envLowFires).length) ∧
    check_low_recovery envLowFires = Except.ok (some (lowRecoveryFlag [20, 25, 30])) ∧
    check_low_recovery envLowQuiet = Except.ok none :=
  ⟨by with_unfolding_all decide,
   (check_low_recovery_characterization envLowFires rfl
      (by with_unfolding_all decide)).trans (by with_unfolding_all decide),
   (check_low_recovery_characterization envLowQuiet rfl
      (by with_unfolding_all decide)).trans (by with_unfolding_all decide)⟩

/-- C7: for every snapshot with working storage, check_skin_temp_spike
returns no flag when fewer than 5 non-null skin temperatures sit in the
trailing 14-day window; otherwise, with the baseline the mean of all such
values except the most recent sample, it fires exactly when the latest value
exceeds the baseline by more than 0.5, and the flag carries latest, baseline
and delta each rounded to two decimals. -/
theorem check_skin_temp_characterization :
    (∀ env, env.db.ok = true → (skinVals env).length < 5 →
        check_skin_temp_spike env = Except.ok none) ∧
    (∀ (env : Env) (latest : Rat) (rest : List Rat), env.db.ok = true →
        skinVals env = latest :: rest → 5 ≤ (latest :: rest).length →
        check_skin_temp_spike env = Except.ok
          (if SKIN_TEMP_SPIKE_C < latest - mean rest
           then some (skinTempFlag latest (mean rest)) else none)) := by
  constructor
  · intro env hok hlen
    exact check_skin_sparse env hok hlen
  · intro env latest rest hok hcons hlen
    have hq : get_recent_recoveries env 14 = Except.ok (recentRows env 14) := by
      simp [get_recent_recoveries, hok]
    have hvals : (recentRows env 14).filterMap (fun r => r.skin_temp_celsius) = skinVals env := rfl
    have hnot : ¬ ((skinVals env).length < 5) := by rw [hcons]; omega
    simp only [check_skin_temp_spike, hq, hvals]
    rw [if_neg hnot, hcons]
    by_cases hlt : SKIN_TEMP_SPIKE_C < latest - mean rest <;> simp [hlt]

/-- C7 witness: temperatures 37.5, 36.8, 36.9, 36.7, 36.8 give baseline 36.8
and delta 0.7, so the rule fires with the rounded evidence; four samples
return no flag. -/
theorem check_skin_temp_characterization_witness :
    check_skin_temp_spike envSkin =
      Except.ok (some (skinTempFlag (75/2) (184/5))) ∧
    check_skin_temp_spike envSkinFew = Except.ok none :=
  ⟨(check_skin_temp_characterization.2 envSkin (75/2) [184/5, 369/10, 367/10, 184/5]
      rfl (by with_unfolding_all decide) (by with_unfolding_all decide)).trans
      (by with_unfolding_all decide),
   check_skin_temp_characterization.1 envSkinFew rfl (by with_unfolding_all decide)⟩

end Whoop
